import Mathlib

/-!
Verification of `scripts/voice_emotion_analysis.py`, a prosodic feature
extraction script.  The script decodes an audio file with a signal-processing
library, computes summary statistics (pitch, energy, timing, voice quality)
with numpy, and prints the resulting record as JSON.

The embedding works at the boundary of the signal-processing library calls:
`AnalysisData` packages the outputs of `librosa.pyin`, `librosa.feature.rms`
and `librosa.beat.beat_track` for one input file, and
`extract_prosodic_features` reproduces the numpy aggregation and dictionary
assembly performed by the Python function of the same name.  Scalars are
modelled as exact rationals; values produced through `np.std` (a square root)
live in `ℝ`.  A numpy float that is NaN or ±Infinity is modelled as `none`:
`npMean`/`npVar`/`npStd` of an empty array are NaN, and `fdiv` yields a
non-finite value exactly when the denominator is zero or an operand is
already non-finite.  `np.ptp` of an empty array raises `ValueError`, which the
script's `except` clause turns into an extraction failure; this is the
`none` branch of `extract_prosodic_features`.
-/

/-- Outputs of the library analysis passes consumed by the script:
per-frame pitch estimates and voicing flags from `librosa.pyin`
(at an unvoiced frame the pitch value is a placeholder, the flag is
`false`), per-frame RMS amplitudes from `librosa.feature.rms`, and the
tempo estimate plus beat positions from `librosa.beat.beat_track`. -/
structure AnalysisData where
  f0 : List ℚ
  voiced_flag : List Bool
  rms : List ℚ
  tempo : ℚ
  beats : List ℚ
deriving DecidableEq

/-- `np.mean`: NaN (`none`) on an empty array. -/
def npMean (xs : List ℚ) : Option ℚ :=
  if xs.isEmpty then none else some (xs.sum / xs.length)

/-- `np.var` (population variance, ddof = 0): NaN on an empty array. -/
def npVar (xs : List ℚ) : Option ℚ :=
  (npMean xs).map fun m => ((xs.map fun x => (x - m) ^ 2).sum) / xs.length

/-- `np.std`: square root of the population variance, NaN on an empty array. -/
noncomputable def npStd (xs : List ℚ) : Option ℝ :=
  (npVar xs).map fun v => Real.sqrt (v : ℝ)

/-- `np.diff`: successive differences `xs[i+1] - xs[i]`. -/
def npDiff (xs : List ℚ) : List ℚ :=
  List.zipWith (fun a b => a - b) xs.tail xs

/-- `np.ptp`: peak-to-peak (max minus min); raises on an empty array, so the
empty case is `none` and callers must guard it. -/
def npPtp : List ℚ → Option ℚ
  | [] => none
  | x :: xs => some (xs.foldl max x - xs.foldl min x)

/-- Float division as the script uses it: the result is finite exactly when
both operands are finite and the denominator is nonzero (`x/0` is ±Inf,
`0/0` is NaN). -/
noncomputable def fdiv (a : Option ℝ) (b : Option ℚ) : Option ℝ :=
  match a, b with
  | some x, some y => if y = 0 then none else some (x / (y : ℝ))
  | _, _ => none

/-- `f0_clean = f0[voiced_flag]`: the pitch estimates at voiced frames. -/
def f0_clean (a : AnalysisData) : List ℚ :=
  (a.f0.zip a.voiced_flag).filterMap fun p => if p.2 then some p.1 else none

/-- `energy = rms ** 2`: per-frame energy. -/
def energyOf (a : AnalysisData) : List ℚ :=
  a.rms.map fun x => x ^ 2

/-- The `pitch` section of the result record. -/
structure PitchSection where
  mean_f0 : Option ℚ
  f0_variance : Option ℚ
  f0_range : Option ℚ
  pitch_contour : List ℚ
deriving DecidableEq

/-- The `energy` section of the result record. -/
structure EnergySection where
  mean_energy : Option ℚ
  energy_variance : Option ℚ
  dynamic_range : Option ℚ
  energy_contour : List ℚ
deriving DecidableEq

/-- The `timing` section of the result record. -/
structure TimingSection where
  speaking_rate : ℚ
  pause_patterns : List ℚ
  rhythm_score : Option ℝ

/-- One entry of the `formants` list. -/
structure Formant where
  frequency : ℚ
  bandwidth : ℚ
deriving DecidableEq

/-- The `voice_quality` section of the result record. -/
structure VoiceQuality where
  jitter : Option ℝ
  shimmer : Option ℝ
  hnr : ℚ
  formants : List Formant

/-- The four-section record returned by a successful extraction. -/
structure ResultRecord where
  pitch : PitchSection
  energy : EnergySection
  timing : TimingSection
  voice_quality : VoiceQuality

/-- The dictionary literal built by `extract_prosodic_features`, translated
field by field from the Python source. -/
noncomputable def extractRecord (a : AnalysisData) : ResultRecord :=
  { pitch :=
      { mean_f0 := if 0 < (f0_clean a).length then npMean (f0_clean a) else some 150
        f0_variance := if 0 < (f0_clean a).length then npVar (f0_clean a) else some 100
        f0_range := if 0 < (f0_clean a).length then npPtp (f0_clean a) else some 50
        pitch_contour := if 0 < (f0_clean a).length then (f0_clean a).take 100 else [] }
    energy :=
      { mean_energy := npMean (energyOf a)
        energy_variance := npVar (energyOf a)
        dynamic_range := npPtp (energyOf a)
        energy_contour := (energyOf a).take 100 }
    timing :=
      { speaking_rate := a.tempo * 2
        pause_patterns := []
        rhythm_score := fdiv (npStd (npDiff a.beats)) (npMean (npDiff a.beats)) }
    voice_quality :=
      { jitter :=
          if 1 < (f0_clean a).length then
            fdiv (npStd (npDiff (f0_clean a))) (npMean (f0_clean a))
          else some 0.01
        shimmer := fdiv (npStd (npDiff a.rms)) (npMean a.rms)
        hnr := 15
        formants := [⟨700, 50⟩, ⟨1200, 70⟩, ⟨2500, 100⟩] } }

/-- `extract_prosodic_features`: the whole `try` block.  The only statement in
the assembly that can raise is `np.ptp(energy)` on an empty array, i.e. when
the RMS track is empty; the `except` clause then returns `None`. -/
noncomputable def extract_prosodic_features (a : AnalysisData) : Option ResultRecord :=
  if a.rms.isEmpty then none else some (extractRecord a)

/-- What the script writes to the error stream. -/
inductive StderrMsg where
  | noMsg
  | usageMsg
  | errorMsg
deriving DecidableEq

/-- Observable outcome of one invocation: the record printed to standard
output (if any), the error-stream message, and the exit status. -/
structure CLIResult where
  stdout : Option ResultRecord
  stderrOut : StderrMsg
  exitCode : Nat

/-- The `__main__` block: `argv` is `sys.argv` (program name included);
`loaded` is the result of decoding the given path (`none` when
`librosa.load` raises, which the `except` clause inside
`extract_prosodic_features` turns into a `None` return after printing an
error message). -/
noncomputable def runMain (argv : List String) (loaded : Option AnalysisData) : CLIResult :=
  if argv.length ≠ 2 then ⟨none, .usageMsg, 1⟩
  else
    match loaded with
    | none => ⟨none, .errorMsg, 1⟩
    | some a =>
      match extract_prosodic_features a with
      | none => ⟨none, .errorMsg, 1⟩
      | some r => ⟨some r, .noMsg, 0⟩

/-- The JSON value emitted by `json.dumps`: numbers (non-finite floats
serialize too, hence `Option ℝ`), arrays, and objects with ordered keys. -/
inductive JsonVal where
  | num (x : Option ℝ)
  | arr (elems : List JsonVal)
  | obj (fields : List (String × JsonVal))

/-- A finite rational number as a JSON number. -/
noncomputable def qnum (x : Option ℚ) : JsonVal :=
  .num (x.map fun q => (q : ℝ))

/-- Serialization of the result record, mirroring the Python dictionary
literal key for key and in order. -/
noncomputable def ResultRecord.toJson (r : ResultRecord) : JsonVal :=
  .obj
    [("pitch", .obj
        [("mean_f0", qnum r.pitch.mean_f0),
         ("f0_variance", qnum r.pitch.f0_variance),
         ("f0_range", qnum r.pitch.f0_range),
         ("pitch_contour", .arr (r.pitch.pitch_contour.map fun q => qnum (some q)))]),
     ("energy", .obj
        [("mean_energy", qnum r.energy.mean_energy),
         ("energy_variance", qnum r.energy.energy_variance),
         ("dynamic_range", qnum r.energy.dynamic_range),
         ("energy_contour", .arr (r.energy.energy_contour.map fun q => qnum (some q)))]),
     ("timing", .obj
        [("speaking_rate", qnum (some r.timing.speaking_rate)),
         ("pause_patterns", .arr (r.timing.pause_patterns.map fun q => qnum (some q))),
         ("rhythm_score", .num r.timing.rhythm_score)]),
     ("voice_quality", .obj
        [("jitter", .num r.voice_quality.jitter),
         ("shimmer", .num r.voice_quality.shimmer),
         ("hnr", qnum (some r.voice_quality.hnr)),
         ("formants", .arr (r.voice_quality.formants.map fun f =>
            .obj [("frequency", qnum (some f.frequency)),
                  ("bandwidth", qnum (some f.bandwidth))]))])]

/-- The keys of a JSON object (empty for non-objects). -/
def JsonVal.keys : JsonVal → List String
  | .obj fs => fs.map Prod.fst
  | _ => []

/-- Top-level keys of the emitted record paired with the keys of each
section, read off the serialized form. -/
noncomputable def sectionKeys (r : ResultRecord) : List (String × List String) :=
  match r.toJson with
  | .obj fs => fs.map fun p => (p.1, p.2.keys)
  | _ => []

/-- The contract of `librosa.pyin(y, fmin=50, fmax=400)`: every pitch
estimate at a voiced frame lies in the requested range. -/
def pyinInRange (a : AnalysisData) : Prop :=
  ∀ p ∈ a.f0.zip a.voiced_flag, p.2 = true → 50 ≤ p.1 ∧ p.1 ≤ 400

/-- Modelled from the spec: the coefficient of variation (standard deviation
divided by mean) of the sequence of successive differences of a track.  The
spec describes jitter, shimmer and the rhythm score in these words. -/
noncomputable def covOfDiffs (xs : List ℚ) : Option ℝ :=
  fdiv (npStd (npDiff xs)) (npMean (npDiff xs))

/-- Library outputs consistent with a silent (all-zero) waveform: no voiced
frame, zero RMS everywhere, no detected beats. -/
def silentData : AnalysisData :=
  ⟨[0, 0], [false, false], [0, 0], 0, []⟩

/-- Library outputs consistent with a short voiced recording: three voiced
frames at 100, 200 and 400 Hz, two RMS frames, three beats. -/
def toneData : AnalysisData :=
  ⟨[100, 200, 400], [true, true, true], [1/10, 2/10], 120, [0, 10, 20]⟩

/-- A variant of `toneData` with an extra unvoiced frame (placeholder pitch
999) and different energy/timing tracks, but the same voiced pitch values. -/
def toneData2 : AnalysisData :=
  ⟨[100, 999, 200, 400], [true, false, true, true], [5], 60, []⟩

/-! ### Helper lemmas -/

theorem extract_eq_some_iff (a : AnalysisData) (r : ResultRecord)
    (h : extract_prosodic_features a = some r) :
    a.rms ≠ [] ∧ r = extractRecord a := by
  unfold extract_prosodic_features at h
  by_cases he : a.rms.isEmpty
  · simp [he] at h
  · refine ⟨fun hc => he (by simp [hc]), ?_⟩
    simp [he] at h
    exact h.symm

theorem npMean_cons (x : ℚ) (t : List ℚ) :
    npMean (x :: t) = some ((x :: t).sum / (x :: t).length) := by
  simp [npMean]

theorem npMean_isSome (xs : List ℚ) (h : xs ≠ []) : (npMean xs).isSome = true := by
  cases xs with
  | nil => exact absurd rfl h
  | cons x t => simp [npMean]

theorem npVar_isSome (xs : List ℚ) (h : xs ≠ []) : (npVar xs).isSome = true := by
  simpa [npVar] using npMean_isSome xs h

theorem npStd_eq_some (xs : List ℚ) (h : xs ≠ []) :
    ∃ s : ℝ, npStd xs = some s := by
  have hv := npVar_isSome xs h
  obtain ⟨v, hv⟩ := Option.isSome_iff_exists.mp hv
  exact ⟨Real.sqrt (v : ℝ), by simp [npStd, hv]⟩

theorem npPtp_isSome (xs : List ℚ) (h : xs ≠ []) : (npPtp xs).isSome = true := by
  cases xs with
  | nil => exact absurd rfl h
  | cons x t => simp [npPtp]

theorem fdiv_den_zero (a : Option ℝ) : fdiv a (some 0) = none := by
  cases a <;> simp [fdiv]

theorem fdiv_isSome (x : ℝ) (y : ℚ) (hy : y ≠ 0) :
    (fdiv (some x) (some y)).isSome = true := by
  simp [fdiv, hy]

theorem npMean_pos (xs : List ℚ) (h : xs ≠ [])
    (hb : ∀ x ∈ xs, (50 : ℚ) ≤ x) :
    ∃ m : ℚ, npMean xs = some m ∧ 0 < m := by
  cases xs with
  | nil => exact absurd rfl h
  | cons x t =>
    refine ⟨(x :: t).sum / (x :: t).length, npMean_cons x t, ?_⟩
    apply div_pos
    · exact List.sum_pos (x :: t)
        (fun y hy => lt_of_lt_of_le (by norm_num) (hb y hy)) (by simp)
    · exact_mod_cast Nat.succ_pos t.length

theorem f0_clean_range (a : AnalysisData) (hv : pyinInRange a) :
    ∀ x ∈ f0_clean a, (50 : ℚ) ≤ x ∧ x ≤ 400 := by
  intro x hx
  simp only [f0_clean, List.mem_filterMap] at hx
  obtain ⟨p, hp, hpx⟩ := hx
  by_cases h2 : p.2 = true
  · rw [if_pos h2] at hpx
    cases hpx
    exact hv p hp h2
  · rw [if_neg h2] at hpx
    cases hpx

theorem npDiff_ne_nil (xs : List ℚ) (h : 1 < xs.length) : npDiff xs ≠ [] := by
  match xs, h with
  | x :: y :: t, _ => simp [npDiff]

theorem energyOf_ne_nil (a : AnalysisData) (h : a.rms ≠ []) : energyOf a ≠ [] := by
  simpa [energyOf] using h

theorem contour_eq_take (a : AnalysisData) :
    (extractRecord a).pitch.pitch_contour = (f0_clean a).take 100 := by
  show (if 0 < (f0_clean a).length then (f0_clean a).take 100 else []) = _
  by_cases h : 0 < (f0_clean a).length
  · rw [if_pos h]
  · rw [if_neg h]
    have : f0_clean a = [] := by
      cases hc : f0_clean a with
      | nil => rfl
      | cons x t => rw [hc] at h; simp at h
    rw [this]
    rfl

/-! ### Claim theorems -/

/-- C10: for every successful extraction, regardless of the input audio,
`timing.pause_patterns` is the empty list — no pause analysis is performed. -/
theorem pause_patterns_always_empty (a : AnalysisData) (r : ResultRecord)
    (hr : extract_prosodic_features a = some r) :
    r.timing.pause_patterns = [] := by
  obtain ⟨-, rfl⟩ := extract_eq_some_iff a r hr
  rfl

theorem pause_patterns_always_empty_witness :
    (extractRecord silentData).timing.pause_patterns = [] :=
  pause_patterns_always_empty silentData (extractRecord silentData)
    (by simp [extract_prosodic_features, silentData])

/-- C4: for every input, `voice_quality.formants` of a successful extraction
is exactly the three fixed frequency/bandwidth pairs 700/50, 1200/70 and
2500/100, independent of the audio signal. -/
theorem formants_unconditional (a : AnalysisData) (r : ResultRecord)
    (hr : extract_prosodic_features a = some r) :
    r.voice_quality.formants = [⟨700, 50⟩, ⟨1200, 70⟩, ⟨2500, 100⟩] := by
  obtain ⟨-, rfl⟩ := extract_eq_some_iff a r hr
  rfl

theorem formants_unconditional_witness :
    (extractRecord silentData).voice_quality.formants =
      [⟨700, 50⟩, ⟨1200, 70⟩, ⟨2500, 100⟩] :=
  formants_unconditional silentData (extractRecord silentData)
    (by simp [extract_prosodic_features, silentData])

/-- C5: in every successful extraction, `pitch_contour` and `energy_contour`
are the first 100 elements of the voiced-pitch and per-frame energy
sequences respectively, so their lengths never exceed 100. -/
theorem contours_truncated_to_100 (a : AnalysisData) (r : ResultRecord)
    (hr : extract_prosodic_features a = some r) :
    r.pitch.pitch_contour = (f0_clean a).take 100 ∧
    r.energy.energy_contour = (energyOf a).take 100 ∧
    r.pitch.pitch_contour.length ≤ 100 ∧
    r.energy.energy_contour.length ≤ 100 := by
  obtain ⟨-, rfl⟩ := extract_eq_some_iff a r hr
  refine ⟨contour_eq_take a, rfl, ?_, ?_⟩
  · rw [contour_eq_take a]
    exact List.length_take_le 100 _
  · exact List.length_take_le 100 _

theorem contours_truncated_to_100_witness :
    (extractRecord toneData).pitch.pitch_contour = (f0_clean toneData).take 100 ∧
    (extractRecord toneData).energy.energy_contour = (energyOf toneData).take 100 ∧
    (extractRecord toneData).pitch.pitch_contour.length ≤ 100 ∧
    (extractRecord toneData).energy.energy_contour.length ≤ 100 :=
  contours_truncated_to_100 toneData (extractRecord toneData)
    (by simp [extract_prosodic_features, toneData])

/-- C7: the emitted record has exactly the four top-level keys pitch, energy,
timing and voice_quality, and each section carries exactly the documented
sub-keys, in the order of the source dictionary literal. -/
theorem json_keys_documented (a : AnalysisData) (r : ResultRecord)
    (hr : extract_prosodic_features a = some r) :
    sectionKeys r =
      [("pitch", ["mean_f0", "f0_variance", "f0_range", "pitch_contour"]),
       ("energy", ["mean_energy", "energy_variance", "dynamic_range", "energy_contour"]),
       ("timing", ["speaking_rate", "pause_patterns", "rhythm_score"]),
       ("voice_quality", ["jitter", "shimmer", "hnr", "formants"])] := by
  obtain ⟨-, rfl⟩ := extract_eq_some_iff a r hr
  rfl

theorem json_keys_documented_witness :
    sectionKeys (extractRecord silentData) =
      [("pitch", ["mean_f0", "f0_variance", "f0_range", "pitch_contour"]),
       ("energy", ["mean_energy", "energy_variance", "dynamic_range", "energy_contour"]),
       ("timing", ["speaking_rate", "pause_patterns", "rhythm_score"]),
       ("voice_quality", ["jitter", "shimmer", "hnr", "formants"])] :=
  json_keys_documented silentData (extractRecord silentData)
    (by simp [extract_prosodic_features, silentData])

/-- C8: in every successful extraction, `timing.speaking_rate` is exactly
twice the estimated tempo, and `timing.rhythm_score` is the coefficient of
variation of the inter-beat intervals (successive differences of the beat
positions). -/
theorem timing_from_beat_track (a : AnalysisData) (r : ResultRecord)
    (hr : extract_prosodic_features a = some r) :
    r.timing.speaking_rate = a.tempo * 2 ∧
    r.timing.rhythm_score = covOfDiffs a.beats := by
  obtain ⟨-, rfl⟩ := extract_eq_some_iff a r hr
  exact ⟨rfl, rfl⟩

theorem timing_from_beat_track_witness :
    (extractRecord toneData).timing.speaking_rate = toneData.tempo * 2 ∧
    (extractRecord toneData).timing.rhythm_score = covOfDiffs toneData.beats :=
  timing_from_beat_track toneData (extractRecord toneData)
    (by simp [extract_prosodic_features, toneData])

/-- C2: when no frame is voiced (and the RMS track is nonempty, as it is for
every decodable input), extraction succeeds and the pitch section holds
exactly the fallback constants 150.0 / 100.0 / 50.0 with an empty contour. -/
theorem pitch_fallback_when_unvoiced (a : AnalysisData)
    (hvoiced : f0_clean a = []) (hrms : a.rms ≠ []) :
    extract_prosodic_features a = some (extractRecord a) ∧
    (extractRecord a).pitch = ⟨some 150, some 100, some 50, []⟩ := by
  constructor
  · have : ¬ a.rms.isEmpty := fun hc => hrms (by simpa using hc)
    simp [extract_prosodic_features, this]
  · show PitchSection.mk _ _ _ _ = _
    rw [hvoiced]
    rfl

theorem pitch_fallback_when_unvoiced_witness :
    extract_prosodic_features silentData = some (extractRecord silentData) ∧
    (extractRecord silentData).pitch = ⟨some 150, some 100, some 50, []⟩ :=
  pitch_fallback_when_unvoiced silentData (by decide) (by decide)

/-- C6: a wrong argument count produces a usage message on the error stream,
exit status 1 and no standard output; an undecodable path (with a correct
argument count) produces an error message, exit status 1 and no standard
output. -/
theorem cli_failures (argv : List String) (loaded : Option AnalysisData) :
    (argv.length ≠ 2 → runMain argv loaded = ⟨none, .usageMsg, 1⟩) ∧
    (argv.length = 2 → runMain argv none = ⟨none, .errorMsg, 1⟩) := by
  constructor
  · intro h
    simp [runMain, h]
  · intro h
    simp [runMain, h]

theorem cli_failures_witness :
    runMain ["voice_emotion_analysis.py"] none = ⟨none, .usageMsg, 1⟩ ∧
    runMain ["voice_emotion_analysis.py", "missing.wav"] none = ⟨none, .errorMsg, 1⟩ :=
  ⟨(cli_failures ["voice_emotion_analysis.py"] none).1 (by decide),
   (cli_failures ["voice_emotion_analysis.py", "missing.wav"] none).2 (by decide)⟩

/-- C9: the pitch section depends only on the voiced-frame pitch values
(inputs agreeing there produce identical pitch sections), and under the
pitch-tracker contract every `pitch_contour` element lies in [50, 400]. -/
theorem pitch_voiced_only_and_in_range (a a' : AnalysisData) (r r' : ResultRecord)
    (hr : extract_prosodic_features a = some r)
    (hr' : extract_prosodic_features a' = some r')
    (heq : f0_clean a = f0_clean a')
    (hv : pyinInRange a) :
    r.pitch = r'.pitch ∧ ∀ x ∈ r.pitch.pitch_contour, (50 : ℚ) ≤ x ∧ x ≤ 400 := by
  obtain ⟨-, rfl⟩ := extract_eq_some_iff a r hr
  obtain ⟨-, rfl⟩ := extract_eq_some_iff a' r' hr'
  constructor
  · show PitchSection.mk _ _ _ _ = PitchSection.mk _ _ _ _
    rw [heq]
  · intro x hx
    rw [contour_eq_take a] at hx
    exact f0_clean_range a hv x (List.take_subset 100 _ hx)

theorem toneData_pyin : pyinInRange toneData := by
  intro p hp h2
  simp [toneData] at hp
  rcases hp with rfl | rfl | rfl <;> norm_num

theorem pitch_voiced_only_and_in_range_witness :
    (extractRecord toneData).pitch = (extractRecord toneData2).pitch ∧
    ∀ x ∈ (extractRecord toneData).pitch.pitch_contour, (50 : ℚ) ≤ x ∧ x ≤ 400 :=
  pitch_voiced_only_and_in_range toneData toneData2
    (extractRecord toneData) (extractRecord toneData2)
    (by simp [extract_prosodic_features, toneData])
    (by simp [extract_prosodic_features, toneData2])
    rfl toneData_pyin

/-- C1 fails as stated: for the analysis of a silent input (all RMS values
zero) extraction succeeds, yet `voice_quality.shimmer` is the float division
`std(diff(rms)) / mean(rms) = 0/0`, i.e. NaN — not a finite float. -/
theorem shimmer_nan_on_silence :
    extract_prosodic_features silentData = some (extractRecord silentData) ∧
    (extractRecord silentData).voice_quality.shimmer = none := by
  refine ⟨by simp [extract_prosodic_features, silentData], ?_⟩
  show fdiv (npStd (npDiff silentData.rms)) (npMean silentData.rms) = none
  rw [show npMean silentData.rms = some 0 by norm_num [npMean, silentData]]
  exact fdiv_den_zero _

/-- C1 amended: in every successful extraction from in-range pitch-tracker
output, every numeric field other than `voice_quality.shimmer` and
`timing.rhythm_score` is finite (the remaining fields — `speaking_rate`,
`hnr` and the formant entries — are rational constants or products of
finite inputs by construction). -/
theorem numeric_fields_finite (a : AnalysisData) (r : ResultRecord)
    (hr : extract_prosodic_features a = some r) (hv : pyinInRange a) :
    r.pitch.mean_f0.isSome = true ∧
    r.pitch.f0_variance.isSome = true ∧
    r.pitch.f0_range.isSome = true ∧
    r.energy.mean_energy.isSome = true ∧
    r.energy.energy_variance.isSome = true ∧
    r.energy.dynamic_range.isSome = true ∧
    r.voice_quality.jitter.isSome = true := by
  obtain ⟨hrms, rfl⟩ := extract_eq_some_iff a r hr
  have hen : energyOf a ≠ [] := energyOf_ne_nil a hrms
  refine ⟨?_, ?_, ?_, npMean_isSome _ hen, npVar_isSome _ hen, npPtp_isSome _ hen, ?_⟩
  · show (if 0 < (f0_clean a).length then npMean (f0_clean a) else some 150).isSome = true
    by_cases h : 0 < (f0_clean a).length
    · rw [if_pos h]
      exact npMean_isSome _ (List.length_pos.mp h)
    · rw [if_neg h]
      rfl
  · show (if 0 < (f0_clean a).length then npVar (f0_clean a) else some 100).isSome = true
    by_cases h : 0 < (f0_clean a).length
    · rw [if_pos h]
      exact npVar_isSome _ (List.length_pos.mp h)
    · rw [if_neg h]
      rfl
  · show (if 0 < (f0_clean a).length then npPtp (f0_clean a) else some 50).isSome = true
    by_cases h : 0 < (f0_clean a).length
    · rw [if_pos h]
      exact npPtp_isSome _ (List.length_pos.mp h)
    · rw [if_neg h]
      rfl
  · show (if 1 < (f0_clean a).length then
        fdiv (npStd (npDiff (f0_clean a))) (npMean (f0_clean a))
      else some 0.01).isSome = true
    by_cases h : 1 < (f0_clean a).length
    · rw [if_pos h]
      obtain ⟨s, hs⟩ := npStd_eq_some _ (npDiff_ne_nil _ h)
      have hne : f0_clean a ≠ [] := by
        intro hc
        rw [hc] at h
        simp at h
      obtain ⟨m, hm, hmpos⟩ := npMean_pos _ hne
        (fun x hx => (f0_clean_range a hv x hx).1)
      rw [hs, hm]
      exact fdiv_isSome s m (ne_of_gt hmpos)
    · rw [if_neg h]
      rfl

theorem numeric_fields_finite_witness :
    (extractRecord toneData).pitch.mean_f0.isSome = true ∧
    (extractRecord toneData).pitch.f0_variance.isSome = true ∧
    (extractRecord toneData).pitch.f0_range.isSome = true ∧
    (extractRecord toneData).energy.mean_energy.isSome = true ∧
    (extractRecord toneData).energy.energy_variance.isSome = true ∧
    (extractRecord toneData).energy.dynamic_range.isSome = true ∧
    (extractRecord toneData).voice_quality.jitter.isSome = true :=
  numeric_fields_finite toneData (extractRecord toneData)
    (by simp [extract_prosodic_features, toneData]) toneData_pyin

/-- C3 fails as stated: at `toneData` (voiced pitches 100, 200, 400 Hz) the
coefficient of variation of the successive pitch differences is
`std([100, 200]) / mean([100, 200]) = 50/150 = 1/3`, but the code computes
jitter as `std(diff) / mean(f0_clean) = 50/(700/3) = 3/14` — it divides by
the mean of the pitch values, not of their differences. -/
theorem jitter_not_cov_of_diffs :
    extract_prosodic_features toneData = some (extractRecord toneData) ∧
    (extractRecord toneData).voice_quality.jitter = some (3 / 14) ∧
    covOfDiffs (f0_clean toneData) = some (1 / 3) ∧
    (3 / 14 : ℝ) ≠ 1 / 3 := by
  have hclean : f0_clean toneData = [100, 200, 400] := rfl
  have hd : npDiff (f0_clean toneData) = [100, 200] := by
    rw [hclean]
    norm_num [npDiff]
  have hstd : npStd (npDiff (f0_clean toneData)) = some 50 := by
    have hvar : npVar [(100 : ℚ), 200] = some 2500 := by norm_num [npVar, npMean]
    rw [hd]
    show (npVar [(100 : ℚ), 200]).map (fun v => Real.sqrt (v : ℝ)) = some 50
    rw [hvar]
    show some (Real.sqrt ((2500 : ℚ) : ℝ)) = some 50
    congr 1
    push_cast
    rw [show (2500 : ℝ) = 50 ^ 2 by norm_num]
    exact Real.sqrt_sq (by norm_num)
  have hmean : npMean (f0_clean toneData) = some (700 / 3) := by
    rw [hclean]
    norm_num [npMean]
  have hmeand : npMean (npDiff (f0_clean toneData)) = some 150 := by
    rw [hd]
    norm_num [npMean]
  have hjit : (extractRecord toneData).voice_quality.jitter = some (3 / 14) := by
    show (if 1 < (f0_clean toneData).length then
        fdiv (npStd (npDiff (f0_clean toneData))) (npMean (f0_clean toneData))
      else some 0.01) = some (3 / 14)
    rw [if_pos (by rw [hclean]; norm_num), hstd, hmean]
    show (if (700 / 3 : ℚ) = 0 then none
      else some ((50 : ℝ) / ((700 / 3 : ℚ) : ℝ))) = some (3 / 14)
    rw [if_neg (by norm_num)]
    congr 1
    push_cast
    norm_num
  have hcov : covOfDiffs (f0_clean toneData) = some (1 / 3) := by
    show fdiv (npStd (npDiff (f0_clean toneData)))
      (npMean (npDiff (f0_clean toneData))) = some (1 / 3)
    rw [hstd, hmeand]
    show (if (150 : ℚ) = 0 then none
      else some ((50 : ℝ) / ((150 : ℚ) : ℝ))) = some (1 / 3)
    rw [if_neg (by norm_num)]
    congr 1
    push_cast
    norm_num
  exact ⟨by simp [extract_prosodic_features, toneData], hjit, hcov, by norm_num⟩

/-- C3 amended: jitter is the standard deviation of the successive voiced
pitch differences divided by the mean of the voiced pitch values themselves
(0.01 when fewer than two voiced frames exist), and shimmer is the standard
deviation of the successive RMS differences divided by the mean RMS
amplitude — the denominators are the track means, not the means of the
difference sequences. -/
theorem jitter_shimmer_std_over_mean (a : AnalysisData) (r : ResultRecord)
    (hr : extract_prosodic_features a = some r) :
    r.voice_quality.jitter =
      (if 1 < (f0_clean a).length then
        fdiv (npStd (npDiff (f0_clean a))) (npMean (f0_clean a))
      else some 0.01) ∧
    r.voice_quality.shimmer = fdiv (npStd (npDiff a.rms)) (npMean a.rms) := by
  obtain ⟨-, rfl⟩ := extract_eq_some_iff a r hr
  exact ⟨rfl, rfl⟩

theorem jitter_shimmer_std_over_mean_witness :
    (extractRecord toneData2).voice_quality.jitter =
      (if 1 < (f0_clean toneData2).length then
        fdiv (npStd (npDiff (f0_clean toneData2))) (npMean (f0_clean toneData2))
      else some 0.01) ∧
    (extractRecord toneData2).voice_quality.shimmer =
      fdiv (npStd (npDiff toneData2.rms)) (npMean toneData2.rms) :=
  jitter_shimmer_std_over_mean toneData2 (extractRecord toneData2)
    (by simp [extract_prosodic_features, toneData2])
